import Mathlib

/-!
# Verification of the ZeroEventHub protocol core (Go implementation)

Shallow embedding of the protocol engine of the `zeroeventhub` repository:
the data model (`api.go`, `client.go`), the client fetch engine
(`client.go`, `api.go`), the server request handlers (`server.go`,
`server_v1.go`, the v2 `EventsHandler`), the NDJSON line scan of the client
and the legacy-protocol discovery fallback.  Pure functions of the Go code
become Lean functions; the HTTP response writer becomes an explicit list of
write operations; the external publisher capability (`FetchEvents` of an
`EventPublisher`) becomes a function parameter returning the records it
emitted through the serializer together with an optional error.
-/

namespace ZeroEventHub

/-- A URL query, as the flattened `url.Values` multimap of Go: an
association list from key to value, first binding wins for `Get`. -/
def Query := List (String × String)

/-- `url.Values.Has`: is the key present? -/
def qHas (q : Query) (k : String) : Bool :=
  q.any (fun p => p.1 == k)

/-- `url.Values.Get`: first value for the key, or `""` when absent. -/
def qGet (q : Query) (k : String) : String :=
  match q.find? (fun p => p.1 == k) with
  | some p => p.2
  | none => ""

/-- Digit-string accumulator of `strconv.Atoi`. -/
def digitsAux (acc : Nat) : List Char → Option Nat
  | [] => some acc
  | c :: rest =>
      if c.isDigit then digitsAux (acc * 10 + (c.toNat - 48)) rest else none

/-- Parse a non-empty all-digit string into a `Nat`; `none` otherwise. -/
def digitsToNat : List Char → Option Nat
  | [] => none
  | cs => digitsAux 0 cs

/-- `strconv.Atoi`: optional sign followed by at least one digit.
(Overflow of 64-bit integers is not modelled; the protocol values involved
are small.) -/
def atoi (s : String) : Option Int :=
  match s.toList with
  | '+' :: rest => (digitsToNat rest).map Int.ofNat
  | '-' :: rest => (digitsToNat rest).map (fun n => -(n : Int))
  | cs => (digitsToNat cs).map Int.ofNat

/-- The text of the error `strconv.Atoi` returns on a syntax error
(`err.Error()` as echoed by the handlers into 400 responses). -/
def atoiErrMsg (s : String) : String :=
  "strconv.Atoi: parsing \"" ++ s ++ "\": invalid syntax"

/-- `strings.TrimSuffix(s, ",")`. -/
def trimSuffixComma (s : String) : String :=
  if s.toList.getLast? = some ',' then (s.toList.dropLast).asString else s

/-- `strings.Split(s, ",")` (single-character separator). -/
def goSplitComma (s : String) : List String :=
  s.splitOn ","

/-- The `headers` query-parameter decoding shared by the handlers:
`strings.Split(strings.TrimSuffix(q.Get("headers"), ","), ",")`. -/
def parseHeadersParam (s : String) : List String :=
  goSplitComma (trimSuffixComma s)

/-- `Cursor` struct of `api.go`: a partition id together with the opaque
cursor within that partition. -/
structure GoCursor where
  partitionID : Int
  cursor : String
deriving DecidableEq, Repr

/-- `parseCursors` (`server.go` / `server_v1.go` / `api.go`): for
`i` in `0 ..< partitionCount`, collect `cursor<i>` when present. -/
def parseCursors (partitionCount : Int) (query : Query) : List GoCursor :=
  (List.range partitionCount.toNat).filterMap (fun i =>
    if qHas query ("cursor" ++ toString i) then
      some ⟨Int.ofNat i, qGet query ("cursor" ++ toString i)⟩
    else none)

/-- A wire record emitted by the publisher through the NDJSON serializer:
either one event envelope line or one checkpoint line. -/
inductive WireRecord where
  | event (partitionId : Int) (data : String)
  | checkpoint (partitionId : Int) (cursor : String)
deriving DecidableEq, Repr

/-- Errors returned by a publisher's `FetchEvents`.  Go compares error
values by identity in `MockHandler`'s `switch err`; the two reserved mock
sentinel error values (`err500`, `err504` of the test harness) are
therefore distinct constructors, every other error is `other` with its
message. -/
inductive GoErr where
  | sentinel500
  | sentinel504
  | other (msg : String)
deriving DecidableEq, Repr

/-- `err.Error()` for the modelled error values: `err500` has text
"error when fetching events" and `err504` has a blank text. -/
def GoErr.text : GoErr → String
  | .sentinel500 => "error when fetching events"
  | .sentinel504 => ""
  | .other m => m

/-- Result of one publisher `FetchEvents` call: the records it emitted
through the serializer (already flushed to the response writer when the
error happens) and the error it returned, if any. -/
structure FetchOutcome where
  records : List WireRecord
  error : Option GoErr
deriving DecidableEq, Repr

/-- One write against the HTTP response writer: either `http.Error`
(which sets the status and writes the message followed by a newline) or
one NDJSON record line produced by the serializer. -/
inductive WriteOp where
  | httpError (status : Nat) (message : String)
  | record (r : WireRecord)
deriving DecidableEq, Repr

/-- Observable outcome of a server handler: the sequence of writes to the
response writer and the arguments of the publisher `FetchEvents` call, if
one was made. -/
structure HResponse (A : Type) where
  writes : List WriteOp
  fetched : Option A
deriving DecidableEq, Repr

/-- A handler exit that only wrote one `http.Error` and never called the
publisher. -/
def errOnly {A : Type} (status : Nat) (message : String) : HResponse A :=
  ⟨[WriteOp.httpError status message], none⟩

/-- The response tail shared by `ZeroEventHubV1Handler`, `EventsHandler`
and `HandlerWithoutRoute` after the publisher call: the records already
serialized, followed by `http.Error(writer, "Internal server error", 500)`
when `FetchEvents` returned a non-nil error (the error itself is only
logged). -/
def fetchRespond (o : FetchOutcome) : List WriteOp :=
  o.records.map WriteOp.record ++
    (match o.error with
     | none => []
     | some _ => [WriteOp.httpError 500 "Internal server error"])

/-- The response tail of the test-harness `MockHandler`: its `switch err`
compares the returned error by identity against the two reserved sentinel
error values and maps them to 500 and 504 with `err.Error()` as the body;
any other error is ignored ("Proceed"). -/
def mockRespond (o : FetchOutcome) : List WriteOp :=
  o.records.map WriteOp.record ++
    (match o.error with
     | some GoErr.sentinel500 => [WriteOp.httpError 500 GoErr.sentinel500.text]
     | some GoErr.sentinel504 => [WriteOp.httpError 504 GoErr.sentinel504.text]
     | _ => [])

/-- Arguments of a single-partition publisher `FetchEvents` call
(`partitionID`, `cursor`, `Options.PageSizeHint`); the `token` argument is
always passed as `""` by the handlers and is omitted. -/
structure V1FetchArgs where
  partitionId : Int
  cursor : String
  pageSizeHint : Int
deriving DecidableEq, Repr

/-- `DefaultPageSize` of `api.go`. -/
def DefaultPageSize : Int := 0

/-- The `pagesizehint` parsing step of `ZeroEventHubV1Handler` and
`HandlerWithoutRoute`: absent means `DefaultPageSize`, malformed is a 400
echoing the `strconv.Atoi` error text. -/
def pshParse (query : Query) : Except String Int :=
  if qHas query "pagesizehint" then
    match atoi (qGet query "pagesizehint") with
    | none => Except.error (atoiErrMsg (qGet query "pagesizehint"))
    | some x => Except.ok x
  else Except.ok DefaultPageSize

/-- `ZeroEventHubV1Handler` (`server.go` and `server_v1.go`; the two
snapshots differ only in whether the partition count comes from
`GetPartitionCount()` or `len(GetFeedInfo().Partitions)`, both passed here
as `partitionCount`).  The publisher's `FetchEvents` is the parameter
`fetch`, taking the partition id, the cursor and the page-size hint. -/
def zeroEventHubV1Handler (partitionCount : Int)
    (fetch : Int → String → Int → FetchOutcome) (query : Query) :
    HResponse V1FetchArgs :=
  if ¬ qHas query "n" then
    errOnly 400 "handshake error: partition count missing"
  else match atoi (qGet query "n") with
  | none => errOnly 400 (atoiErrMsg (qGet query "n"))
  | some n =>
    if n ≠ partitionCount then
      errOnly 400 "handshake error: partition count mismatch"
    else match pshParse query with
    | Except.error e => errOnly 400 e
    | Except.ok pageSizeHint =>
      -- the `headers` parameter is parsed and logged by this handler but
      -- not forwarded to the publisher (`Options{PageSizeHint: ...}` only)
      match parseCursors partitionCount query with
      | [] => errOnly 400 "cursors are missing"
      | [c] =>
        let outcome := fetch c.partitionID c.cursor pageSizeHint
        ⟨fetchRespond outcome, some ⟨c.partitionID, c.cursor, pageSizeHint⟩⟩
      | _ :: _ :: _ =>
        errOnly 400 "support for multiple cursors in the same request has been removed"

/-- `MockHandler` of the test harness (path check omitted): no handshake,
exactly one cursor required, `Options{}` passed, the sentinel errors
translated by `mockRespond`. -/
def mockHandler (partitionCount : Int)
    (fetch : Int → String → Int → FetchOutcome) (query : Query) :
    HResponse V1FetchArgs :=
  match parseCursors partitionCount query with
  | [] => errOnly 400 "cursors are missing"
  | [c] =>
    let outcome := fetch c.partitionID c.cursor DefaultPageSize
    ⟨mockRespond outcome, some ⟨c.partitionID, c.cursor, DefaultPageSize⟩⟩
  | _ :: _ :: _ => errOnly 400 "too many cursors (deprecated)"

/-- `Partition` struct of `client.go`. -/
structure GoPartition where
  id : Int
  closed : Bool
  startsAfterPartition : Int
  cursorFromPartitions : List Int
deriving DecidableEq, Repr

/-- `FeedInfo` struct of `client.go`. -/
structure GoFeedInfo where
  token : String
  partitions : List GoPartition
  exactlyOnce : Bool
deriving DecidableEq, Repr

/-- `pagesizehint` parsing of `EventsHandler`, whose 400 text is the fixed
string "pagesizehint not an integer". -/
def eventsPshParse (query : Query) : Except String Int :=
  if qHas query "pagesizehint" then
    match atoi (qGet query "pagesizehint") with
    | none => Except.error "pagesizehint not an integer"
    | some x => Except.ok x
  else Except.ok DefaultPageSize

/-- `EventsHandler` (v2 fetch endpoint).  The token check runs first; a
partition id that does not parse or is not in `partitionsById` exits with
400; a missing `cursor` parameter writes a 400 `http.Error` but — with no
`return` in the source — the handler falls through, reads the empty cursor
and still calls the publisher. -/
def eventsHandler (feedInfo : GoFeedInfo)
    (fetch : Int → String → Int → FetchOutcome) (query : Query) :
    HResponse V1FetchArgs :=
  if ¬ qHas query "token" ∨ qGet query "token" ≠ feedInfo.token then
    errOnly 409 "illegal token, please fetch new from discovery endpoint"
  else match atoi (qGet query "partition") with
  | none => errOnly 400 (atoiErrMsg (qGet query "partition"))
  | some partitionId =>
    if ¬ feedInfo.partitions.any (fun p => p.id == partitionId) then
      errOnly 400 "partition doesn't exist"
    else match eventsPshParse query with
    | Except.error e => errOnly 400 e
    | Except.ok pageSizeHint =>
      let missingCursorWrites :=
        if ¬ qHas query "cursor" then
          [WriteOp.httpError 400 "no cursor argument"]
        else []
      let cursor := qGet query "cursor"
      let outcome := fetch partitionId cursor pageSizeHint
      ⟨missingCursorWrites ++ fetchRespond outcome,
        some ⟨partitionId, cursor, pageSizeHint⟩⟩

/-- `Options` struct of `api.go` (old snapshot): page-size hint, long-poll
and streaming durations (`time.Duration`, i.e. nanoseconds) and the
headers selector. -/
structure GoOptions where
  pageSizeHint : Int
  wait : Int
  stream : Int
  headers : List String
deriving DecidableEq, Repr

/-- `time.Duration.Milliseconds()`: nanoseconds divided by 10^6,
truncating toward zero as Go's integer division does. -/
def durationMilliseconds (ns : Int) : Int :=
  Int.tdiv ns 1000000

/-- `strings.Join(xs, ",")`. -/
def joinComma (xs : List String) : String :=
  String.intercalate "," xs

/-- The `wait`/`stream` parsing closure `parseMilliseconds` of
`HandlerWithoutRoute`: the query value is `strconv.Atoi`-parsed and scaled
by `time.Millisecond` (10^6 ns); absence yields zero. -/
def parseMsParam (query : Query) (key : String) : Except String Int :=
  if qHas query key then
    match atoi (qGet query key) with
    | none => Except.error (atoiErrMsg (qGet query key))
    | some x => Except.ok (x * 1000000)
  else Except.ok 0

/-- Arguments of the multi-cursor publisher `FetchEvents` call of the old
protocol (`api.go`). -/
structure MultiFetchArgs where
  cursors : List GoCursor
  options : GoOptions
deriving DecidableEq, Repr

/-- `HandlerWithoutRoute` of `api.go` (old single-dialect server): the
same handshake as the v1 handler, then `pagesizehint`, `wait`, `stream`
and `headers` parsing, then cursor parsing (only "no cursors" is an
error — several cursors were still allowed), then the publisher call. -/
def handlerWithoutRoute (partitionCount : Int)
    (fetch : List GoCursor → GoOptions → FetchOutcome) (query : Query) :
    HResponse MultiFetchArgs :=
  if ¬ qHas query "n" then
    errOnly 400 "handshake error: partition count missing"
  else match atoi (qGet query "n") with
  | none => errOnly 400 (atoiErrMsg (qGet query "n"))
  | some n =>
    if n ≠ partitionCount then
      errOnly 400 "handshake error: partition count mismatch"
    else match pshParse query with
    | Except.error e => errOnly 400 e
    | Except.ok pageSizeHint =>
      match parseMsParam query "wait" with
      | Except.error e => errOnly 400 e
      | Except.ok wait =>
        match parseMsParam query "stream" with
        | Except.error e => errOnly 400 e
        | Except.ok stream =>
          let headers :=
            if qHas query "headers" then parseHeadersParam (qGet query "headers")
            else []
          let options : GoOptions :=
            ⟨pageSizeHint, wait, stream, headers⟩
          match parseCursors partitionCount query with
          | [] => errOnly 400 "cursors are missing"
          | c :: cs =>
            let outcome := fetch (c :: cs) options
            ⟨fetchRespond outcome, some ⟨c :: cs, options⟩⟩

/-- The query parameters of the old client's `FetchEvents` request
(`api.go`) at the moment `req.URL.RawQuery = q.Encode()` is executed:
`n`, then `pagesizehint` when the hint is non-zero, one `cursor<id>` per
cursor, and `headers` when the selector list is non-empty.  This is the
query string actually sent: the source only adds `stream` and `wait` to
the local `q` map *after* `RawQuery` has been assigned, so those two
additions never reach the request. -/
def clientV1SentQuery (partitionCount : Int) (cursors : List GoCursor)
    (options : GoOptions) : List (String × String) :=
  [("n", toString partitionCount)]
  ++ (if options.pageSizeHint ≠ DefaultPageSize then
        [("pagesizehint", toString options.pageSizeHint)]
      else [])
  ++ cursors.map (fun c => ("cursor" ++ toString c.partitionID, c.cursor))
  ++ (if options.headers ≠ [] then [("headers", joinComma options.headers)] else [])

/-- The contents of the local `q` map after the two post-`Encode`
additions of `api.go` (`stream` and `wait` in whole milliseconds when
non-zero).  The map is dead at this point — nothing reads it again — but
it shows which parameters the code intended to send. -/
def clientV1DeadQuery (partitionCount : Int) (cursors : List GoCursor)
    (options : GoOptions) : List (String × String) :=
  clientV1SentQuery partitionCount cursors options
  ++ (if options.stream ≠ 0 then
        [("stream", toString (durationMilliseconds options.stream))]
      else [])
  ++ (if options.wait ≠ 0 then
        [("wait", toString (durationMilliseconds options.wait))]
      else [])

/-- Outcome of `Client.Discover` on a given HTTP status and response body:
a synthesized v1-fallback `FeedInfo`, an error message, or progression to
`json.Unmarshal` of the body (the JSON library call is kept abstract). -/
inductive DiscoverOutcome where
  | ok (info : GoFeedInfo)
  | err (msg : String)
  | unmarshal (body : String)
deriving DecidableEq, Repr

/-- The fallback-partition loop of `Client.Discover`
(`for i := 0; i != c.partitionCount; i++`), appending `Partition{Id: i}`
(all other fields left at their Go zero values) starting from id `i` for
`count` iterations. -/
def v1FallbackFrom (i : Nat) : Nat → List GoPartition
  | 0 => []
  | Nat.succ m =>
      { id := Int.ofNat i, closed := false, startsAfterPartition := 0,
        cursorFromPartitions := [] } :: v1FallbackFrom (i + 1) m

/-- The partitions synthesized by the v1 compatibility fallback of
`Client.Discover` for a client with `partitionCount` partitions. -/
def v1FallbackPartitions (partitionCount : Nat) : List GoPartition :=
  v1FallbackFrom 0 partitionCount

/-- `NoV1Support`: the partition count signalling that the client does not
speak the legacy protocol. -/
def NoV1Support : Nat := 0

/-- `V1Token`: the sentinel token signalling the legacy protocol. -/
def V1Token : String := "_v1"

/-- First 1000 response bytes, as `responseBody[:1000]` truncates before
embedding the body into the discovery error (characters stand in for
bytes; the two agree on ASCII bodies). -/
def truncate1000 (s : String) : String :=
  ((s.toList).take 1000).asString

/-- `Client.Discover` (`client.go`) as a function of the discovery
response's status code and body.  Status 400 with a client configured for
v1 support synthesizes the legacy `FeedInfo`; any other non-200 status is
an error embedding the (truncated) body; a 200 proceeds to JSON
unmarshalling.  (The Go loop diverges for a negative partition count, so
the count is a `Nat` here.) -/
def discover (partitionCount : Nat) (status : Nat) (body : String) :
    DiscoverOutcome :=
  if status = 400 ∧ partitionCount ≠ NoV1Support then
    DiscoverOutcome.ok
      { token := V1Token, partitions := v1FallbackPartitions partitionCount,
        exactlyOnce := false }
  else if status ≠ 200 then
    DiscoverOutcome.err
      ("Unexpected status code: " ++ toString status ++ ". Response body: "
        ++ truncate1000 body)
  else DiscoverOutcome.unmarshal body

/-- The whitespace set of `bytes.TrimSpace` restricted to ASCII (which is
all the scanner can meet inside a JSON line). -/
def isGoSpace (c : Char) : Bool :=
  c = ' ' || c = '\t' || c = '\n' || c = '\u000b' || c = '\u000c' || c = '\r'

/-- `bytes.TrimSpace`: drop leading and trailing whitespace. -/
def goTrimSpace (l : List Char) : List Char :=
  ((l.dropWhile isGoSpace).reverse.dropWhile isGoSpace).reverse

/-- `bufio.Scanner` with the default `ScanLines` split, one character at a
time; `cur` is the (reversed) partial line read so far.  A newline ends a
token; at end of input a non-empty remainder is emitted as a final token,
so a body with and without a terminating newline yields the same tokens. -/
def scanLinesAux (cur : List Char) : List Char → List (List Char)
  | [] => if cur.isEmpty then [] else [cur.reverse]
  | c :: rest =>
      if c = '\n' then cur.reverse :: scanLinesAux [] rest
      else scanLinesAux (c :: cur) rest

/-- The token sequence `bufio.Scanner`/`ScanLines` produces on a body.
(`ScanLines` also strips one `'\r'` before each newline; the client trims
every token with `bytes.TrimSpace` immediately, which removes that `'\r'`
as well, so the carriage-return handling is subsumed by the trim.) -/
def scanLines (body : List Char) : List (List Char) :=
  scanLinesAux [] body

/-- A partially-parsed NDJSON line of the v2 client (`client.go`): the
`checkpointOrEvent` struct with the `cursor` field and the raw `data`
payload (`""` models a `nil`/absent `json.RawMessage`). -/
structure CheckpointOrEventV2 where
  cursor : String
  data : String
deriving DecidableEq, Repr

/-- One invocation of the caller-supplied v2 `EventReceiver`. -/
inductive ReceiverCallV2 where
  | checkpoint (cursor : String)
  | event (data : String)
deriving DecidableEq, Repr

/-- The classification step of the v2 client scan (`client.go`): a
non-empty `cursor` field makes the line a checkpoint, anything else is
dispatched as an event carrying the raw `data`. -/
def dispatchLineV2 (p : CheckpointOrEventV2) : ReceiverCallV2 :=
  if p.cursor ≠ "" then ReceiverCallV2.checkpoint p.cursor
  else ReceiverCallV2.event p.data

/-- A partially-parsed NDJSON line of the old client (`api.go`): the
`checkpointOrEvent` struct with partition id, `cursor`, `headers` and raw
`data`. -/
structure CheckpointOrEventV1 where
  partitionId : Int
  cursor : String
  headers : List (String × String)
  data : String
deriving DecidableEq, Repr

/-- One invocation of the caller-supplied `EventReceiver` of the old
client. -/
inductive ReceiverCallV1 where
  | checkpoint (partitionId : Int) (cursor : String)
  | event (partitionId : Int) (headers : List (String × String)) (data : String)
deriving DecidableEq, Repr

/-- The classification step of the old client scan (`api.go`), identical
in shape to the v2 one. -/
def dispatchLineV1 (p : CheckpointOrEventV1) : ReceiverCallV1 :=
  if p.cursor ≠ "" then ReceiverCallV1.checkpoint p.partitionId p.cursor
  else ReceiverCallV1.event p.partitionId p.headers p.data

/-- The v2 client's scan loop over the already-split lines: trim each
line, skip blank ones, `json.Unmarshal` the rest (the JSON parser itself
is the abstract parameter `parse`; `none` is a parse failure, which aborts
the scan with an error exactly as the source `return err` does) and
dispatch each parsed line to the receiver. -/
def processLines (parse : List Char → Option CheckpointOrEventV2) :
    List (List Char) → Except String (List ReceiverCallV2)
  | [] => Except.ok []
  | l :: ls =>
      let t := goTrimSpace l
      if t.isEmpty then processLines parse ls
      else match parse t with
        | none => Except.error "json unmarshal error"
        | some p =>
            match processLines parse ls with
            | Except.error e => Except.error e
            | Except.ok calls => Except.ok (dispatchLineV2 p :: calls)

/-- The receiver-invocation sequence the v2 client produces from a whole
2xx response body. -/
def processBody (parse : List Char → Option CheckpointOrEventV2)
    (body : List Char) : Except String (List ReceiverCallV2) :=
  processLines parse (scanLines body)

/-- `json.Unmarshal(d, &x)` for an event payload: Go's `encoding/json`
rejects an empty input with "unexpected end of JSON input" whatever the
target type; on a non-empty input it defers to the (abstract) decoder for
the target type. -/
def jsonUnmarshalInto {T : Type} (decode : String → Option T) (d : String) :
    Except String T :=
  if d = "" then Except.error "unexpected end of JSON input"
  else match decode d with
    | some v => Except.ok v
    | none => Except.error "json unmarshal error"

/-- `EventPageSingleType[T]` of the v2 snapshot: the accumulated decoded
events and the last checkpoint cursor. -/
structure PageSingleType (T : Type) where
  events : List T
  cursor : String
deriving DecidableEq, Repr

/-- `EventPageSingleType.Checkpoint`: remember the cursor. -/
def pageSingleTypeCheckpoint {T : Type} (page : PageSingleType T)
    (cursor : String) : PageSingleType T :=
  { page with cursor := cursor }

/-- `EventPageSingleType.Event`: `json.Unmarshal` the raw payload into the
event type and append it, propagating the unmarshal error. -/
def pageSingleTypeEvent {T : Type} (decode : String → Option T)
    (page : PageSingleType T) (d : String) : Except String (PageSingleType T) :=
  match jsonUnmarshalInto decode d with
  | Except.error e => Except.error e
  | Except.ok v => Except.ok { page with events := page.events ++ [v] }

/-- `Client` struct (`client.go`): the HTTP client, request processor and
logger are external Go values, kept as type parameters. -/
structure GoClient (H R L : Type) where
  httpClient : H
  requestProcessor : R
  logger : L
  url : String
  partitionCount : Int

/-- `Client.WithHttpClient`: `r = c; r.httpClient = httpClient; return`. -/
def withHttpClient {H R L : Type} (c : GoClient H R L) (httpClient : H) :
    GoClient H R L :=
  { c with httpClient := httpClient }

/-- `Client.WithRequestProcessor`. -/
def withRequestProcessor {H R L : Type} (c : GoClient H R L)
    (requestProcessor : R) : GoClient H R L :=
  { c with requestProcessor := requestProcessor }

/-- `Client.WithLogger`. -/
def withLogger {H R L : Type} (c : GoClient H R L) (logger : L) :
    GoClient H R L :=
  { c with logger := logger }

/-! ## Helper lemmas -/

/-- When the key is absent, `url.Values.Get` yields the empty string. -/
theorem qGet_of_not_has (q : Query) (k : String) (h : ¬ qHas q k) :
    qGet q k = "" := by
  unfold qGet
  cases hf : q.find? (fun p => p.1 == k) with
  | none => rfl
  | some p =>
      exfalso
      have hp := List.find?_some hf
      exact h (List.any_eq_true.mpr ⟨p, List.mem_of_find?_eq_some hf, hp⟩)

/-- The fallback loop of `Client.Discover` started at `i` produces the
partitions with ids `i, i+1, …`. -/
theorem v1FallbackFrom_eq_range_map (m : Nat) : ∀ (i : Nat),
    v1FallbackFrom i m =
      (List.range m).map (fun j =>
        { id := Int.ofNat (i + j), closed := false, startsAfterPartition := 0,
          cursorFromPartitions := [] }) := by
  induction m with
  | zero => intro i; rfl
  | succ m ih =>
      intro i
      rw [List.range_succ_eq_map]
      simp only [v1FallbackFrom, List.map_cons, List.map_map, ih (i + 1)]
      refine congrArg₂ _ (by simp) ?_
      apply List.map_congr_left
      intro j _
      simp only [Function.comp_apply]
      congr 1
      exact congrArg Int.ofNat (by omega)

/-- The synthesized v1-fallback partitions are exactly the partitions with
ids `0 ..< k` and all other fields at their zero values. -/
theorem v1FallbackPartitions_eq (k : Nat) :
    v1FallbackPartitions k =
      (List.range k).map (fun j =>
        { id := Int.ofNat j, closed := false, startsAfterPartition := 0,
          cursorFromPartitions := [] }) := by
  rw [v1FallbackPartitions, v1FallbackFrom_eq_range_map]
  exact List.map_congr_left (fun j _ => by simp)

/-! ## Claim theorems -/

/-- C10: each of the Client configuration methods `WithHttpClient`,
`WithRequestProcessor` and `WithLogger` returns a client that equals the
receiver in every field except the one being replaced (the receiver is a
Go value receiver, so the original client value is never mutated). -/
theorem client_config_methods_frame {H R L : Type} (c : GoClient H R L)
    (hc : H) (rp : R) (lg : L) :
    ((withHttpClient c hc).httpClient = hc ∧
     (withHttpClient c hc).requestProcessor = c.requestProcessor ∧
     (withHttpClient c hc).logger = c.logger ∧
     (withHttpClient c hc).url = c.url ∧
     (withHttpClient c hc).partitionCount = c.partitionCount) ∧
    ((withRequestProcessor c rp).requestProcessor = rp ∧
     (withRequestProcessor c rp).httpClient = c.httpClient ∧
     (withRequestProcessor c rp).logger = c.logger ∧
     (withRequestProcessor c rp).url = c.url ∧
     (withRequestProcessor c rp).partitionCount = c.partitionCount) ∧
    ((withLogger c lg).logger = lg ∧
     (withLogger c lg).httpClient = c.httpClient ∧
     (withLogger c lg).requestProcessor = c.requestProcessor ∧
     (withLogger c lg).url = c.url ∧
     (withLogger c lg).partitionCount = c.partitionCount) :=
  ⟨⟨rfl, rfl, rfl, rfl, rfl⟩, ⟨rfl, rfl, rfl, rfl, rfl⟩,
    ⟨rfl, rfl, rfl, rfl, rfl⟩⟩

/-- C2: `Client.Discover` on a 400 discovery response synthesizes, for a
client constructed with a non-zero partition count `k`, the legacy
`FeedInfo` with token `"_v1"` and `k` partitions with ids `0 ..< k` and
zero-valued remaining fields; for a `NoV1Support` client the same 400 is
surfaced as an error carrying the (truncated) response body. -/
theorem discover_v1_fallback (k : Nat) (body : String)
    (hk : k ≠ NoV1Support) :
    discover k 400 body =
      DiscoverOutcome.ok
        { token := V1Token,
          partitions := (List.range k).map (fun j =>
            { id := Int.ofNat j, closed := false, startsAfterPartition := 0,
              cursorFromPartitions := [] }),
          exactlyOnce := false } ∧
    discover NoV1Support 400 body =
      DiscoverOutcome.err
        ("Unexpected status code: 400. Response body: " ++ truncate1000 body) := by
  constructor
  · rw [discover, if_pos ⟨rfl, hk⟩, v1FallbackPartitions_eq]
  · rw [discover, if_neg (by simp [NoV1Support]), if_pos (by decide)]
    have h400 : "Unexpected status code: " ++ toString (400 : Nat)
        ++ ". Response body: "
        = "Unexpected status code: 400. Response body: " := by decide
    rw [← h400]

/-- Witness for C2 at `k = 3` and the body `"legacy mode"`. -/
theorem discover_v1_fallback_witness :
    discover 3 400 "legacy mode" =
      DiscoverOutcome.ok
        { token := V1Token,
          partitions := (List.range 3).map (fun j =>
            { id := Int.ofNat j, closed := false, startsAfterPartition := 0,
              cursorFromPartitions := [] }),
          exactlyOnce := false } ∧
    discover NoV1Support 400 "legacy mode" =
      DiscoverOutcome.err
        ("Unexpected status code: 400. Response body: "
          ++ truncate1000 "legacy mode") :=
  discover_v1_fallback 3 "legacy mode" (by decide)

/-- C7: a v2 `/events` request whose `token` parameter is absent or not
equal to the `FeedInfo` token is answered 409 with body "illegal token,
please fetch new from discovery endpoint"; the handler returns at once, so
the publisher is not called and nothing else is written. -/
theorem events_handler_token_check (feedInfo : GoFeedInfo)
    (fetch : Int → String → Int → FetchOutcome) (query : Query)
    (h : ¬ qHas query "token" ∨ qGet query "token" ≠ feedInfo.token) :
    eventsHandler feedInfo fetch query =
      { writes := [WriteOp.httpError 409
          "illegal token, please fetch new from discovery endpoint"],
        fetched := none } := by
  rw [eventsHandler, if_pos h]
  rfl

/-- Witness for C7: a request carrying the wrong token against a feed with
token `"the-token"`. -/
theorem events_handler_token_check_witness :
    eventsHandler
      { token := "the-token", partitions := [], exactlyOnce := false }
      (fun _ _ _ => { records := [], error := none })
      [("token", "wrong-token"), ("partition", "0"), ("cursor", "5")] =
      { writes := [WriteOp.httpError 409
          "illegal token, please fetch new from discovery endpoint"],
        fetched := none } :=
  events_handler_token_check _ _ _ (by decide)

/-- C1: on both server generations (`ZeroEventHubV1Handler` and the old
`HandlerWithoutRoute`), a request whose `n` parameter parses to an integer
different from the publisher's partition count is answered 400 with body
"handshake error: partition count mismatch", the publisher's `FetchEvents`
is never invoked and no record line is written. -/
theorem handshake_mismatch (P : Int)
    (fetch1 : Int → String → Int → FetchOutcome)
    (fetch2 : List GoCursor → GoOptions → FetchOutcome) (query : Query)
    (m : Int) (hn : qHas query "n") (hm : atoi (qGet query "n") = some m)
    (hne : m ≠ P) :
    zeroEventHubV1Handler P fetch1 query =
      errOnly 400 "handshake error: partition count mismatch" ∧
    handlerWithoutRoute P fetch2 query =
      errOnly 400 "handshake error: partition count mismatch" := by
  constructor
  · rw [zeroEventHubV1Handler, if_neg (not_not_intro hn), hm]
    simp only [if_pos hne]
  · rw [handlerWithoutRoute, if_neg (not_not_intro hn), hm]
    simp only [if_pos hne]

/-- Witness for C1: a two-partition publisher asked with `n = 3`. -/
theorem handshake_mismatch_witness :
    zeroEventHubV1Handler 2 (fun _ _ _ => { records := [], error := none })
        [("n", "3"), ("cursor0", "_first")] =
      errOnly 400 "handshake error: partition count mismatch" ∧
    handlerWithoutRoute 2 (fun _ _ => { records := [], error := none })
        [("n", "3"), ("cursor0", "_first")] =
      errOnly 400 "handshake error: partition count mismatch" :=
  handshake_mismatch 2 _ _ _ 3 (by decide) (by decide) (by decide)

/-- C5: a v1 request that passes the handshake (and whose optional
`pagesizehint` parses) is answered 400 "cursors are missing" when none of
the `cursor<i>` parameters with `i` below the partition count is present,
and 400 "support for multiple cursors in the same request has been
removed" when more than one is; in both cases the publisher is not
called. -/
theorem v1_cursor_count_errors (P : Int)
    (fetch : Int → String → Int → FetchOutcome) (query : Query) (psh : Int)
    (hn : qHas query "n") (hm : atoi (qGet query "n") = some P)
    (hpsh : pshParse query = Except.ok psh) :
    (parseCursors P query = [] →
      zeroEventHubV1Handler P fetch query =
        errOnly 400 "cursors are missing") ∧
    (∀ c c' cs, parseCursors P query = c :: c' :: cs →
      zeroEventHubV1Handler P fetch query =
        errOnly 400
          "support for multiple cursors in the same request has been removed") := by
  have hbase : zeroEventHubV1Handler P fetch query =
      (match parseCursors P query with
       | [] => errOnly 400 "cursors are missing"
       | [c] =>
         let outcome := fetch c.partitionID c.cursor psh
         ⟨fetchRespond outcome, some ⟨c.partitionID, c.cursor, psh⟩⟩
       | _ :: _ :: _ =>
         errOnly 400
           "support for multiple cursors in the same request has been removed") := by
    rw [zeroEventHubV1Handler, if_neg (not_not_intro hn), hm]
    simp only [if_neg (not_not_intro rfl), hpsh]
  constructor
  · intro hc
    rw [hbase, hc]
  · intro c c' cs hc
    rw [hbase, hc]

/-- Witness for C5: a one-partition publisher with no cursor parameter,
and a two-partition publisher with two cursor parameters. -/
theorem v1_cursor_count_errors_witness :
    zeroEventHubV1Handler 1 (fun _ _ _ => { records := [], error := none })
        [("n", "1")] =
      errOnly 400 "cursors are missing" ∧
    zeroEventHubV1Handler 2 (fun _ _ _ => { records := [], error := none })
        [("n", "2"), ("cursor0", "a"), ("cursor1", "b")] =
      errOnly 400
        "support for multiple cursors in the same request has been removed" :=
  ⟨(v1_cursor_count_errors 1 _ [("n", "1")] 0 (by decide) (by decide)
      rfl).1 (by decide),
   (v1_cursor_count_errors 2 _ [("n", "2"), ("cursor0", "a"), ("cursor1", "b")]
      0 (by decide) (by decide) rfl).2
     ⟨0, "a"⟩ ⟨1, "b"⟩ [] (by decide)⟩

/-- C6: when the publisher's `FetchEvents` returns any non-nil error, the
v1 handler answers 500 with the fixed body "Internal server error" — the
error's own text is only logged, never written; the two reserved sentinel
errors exist only for the mock/test harness `MockHandler`, which maps them
to 500 and 504 with `err.Error()` as the body. -/
theorem publisher_error_translation (P : Int)
    (fetch : Int → String → Int → FetchOutcome) (query : Query) (psh : Int)
    (c : GoCursor) (e : GoErr)
    (hn : qHas query "n") (hm : atoi (qGet query "n") = some P)
    (hpsh : pshParse query = Except.ok psh)
    (hc : parseCursors P query = [c])
    (he : (fetch c.partitionID c.cursor psh).error = some e) :
    (zeroEventHubV1Handler P fetch query).writes =
      (fetch c.partitionID c.cursor psh).records.map WriteOp.record
        ++ [WriteOp.httpError 500 "Internal server error"] ∧
    (∀ records, mockRespond { records := records, error := some GoErr.sentinel500 }
      = records.map WriteOp.record
        ++ [WriteOp.httpError 500 "error when fetching events"]) ∧
    (∀ records, mockRespond { records := records, error := some GoErr.sentinel504 }
      = records.map WriteOp.record ++ [WriteOp.httpError 504 ""]) := by
  refine ⟨?_, fun records => rfl, fun records => rfl⟩
  rw [zeroEventHubV1Handler, if_neg (not_not_intro hn), hm]
  simp only [if_neg (not_not_intro rfl), hpsh, hc]
  simp only [fetchRespond, he]

/-- Witness for C6: a publisher failing with an ordinary error on a
one-partition feed, plus the two sentinel errors through the mock
responder. -/
theorem publisher_error_translation_witness :
    (zeroEventHubV1Handler 1
        (fun _ _ _ => { records := [WireRecord.event 0 "x"],
                        error := some (GoErr.other "database gone") })
        [("n", "1"), ("cursor0", "_first")]).writes =
      [WireRecord.event 0 "x"].map WriteOp.record
        ++ [WriteOp.httpError 500 "Internal server error"] ∧
    (∀ records, mockRespond { records := records, error := some GoErr.sentinel500 }
      = records.map WriteOp.record
        ++ [WriteOp.httpError 500 "error when fetching events"]) ∧
    (∀ records, mockRespond { records := records, error := some GoErr.sentinel504 }
      = records.map WriteOp.record ++ [WriteOp.httpError 504 ""]) :=
  publisher_error_translation 1 _ [("n", "1"), ("cursor0", "_first")] 0
    ⟨0, "_first"⟩ (GoErr.other "database gone") (by decide) (by decide) rfl
    (by decide) rfl

/-- C8: a v2 `/events` request that passes the token, partition and
`pagesizehint` checks but has no `cursor` parameter gets a 400
"no cursor argument" written — yet, the source having no early return
there, the handler still invokes the publisher's `FetchEvents` with the
empty-string cursor and appends its output to the response. -/
theorem events_handler_missing_cursor (feedInfo : GoFeedInfo)
    (fetch : Int → String → Int → FetchOutcome) (query : Query)
    (partitionId : Int) (psh : Int)
    (htok : qHas query "token" ∧ qGet query "token" = feedInfo.token)
    (hpid : atoi (qGet query "partition") = some partitionId)
    (hpart : feedInfo.partitions.any (fun p => p.id == partitionId))
    (hpsh : eventsPshParse query = Except.ok psh)
    (hcur : ¬ qHas query "cursor") :
    eventsHandler feedInfo fetch query =
      { writes := WriteOp.httpError 400 "no cursor argument"
          :: fetchRespond (fetch partitionId "" psh),
        fetched := some ⟨partitionId, "", psh⟩ } := by
  rw [eventsHandler,
    if_neg (by
      intro h
      rcases h with h | h
      · exact h htok.1
      · exact h htok.2),
    hpid]
  simp only [if_neg (not_not_intro hpart), hpsh, if_pos hcur,
    qGet_of_not_has query "cursor" hcur]
  rfl

/-- Witness for C8: a correct token and partition but no `cursor`
parameter; the publisher is reached and its records are written after the
400 error text. -/
theorem events_handler_missing_cursor_witness :
    eventsHandler
      { token := "the-token",
        partitions := [{ id := 0, closed := false, startsAfterPartition := 0,
                         cursorFromPartitions := [] }],
        exactlyOnce := false }
      (fun _ _ _ => { records := [WireRecord.checkpoint 0 "9"], error := none })
      [("token", "the-token"), ("partition", "0")] =
      { writes := WriteOp.httpError 400 "no cursor argument"
          :: fetchRespond { records := [WireRecord.checkpoint 0 "9"],
                            error := none },
        fetched := some ⟨0, "", 0⟩ } :=
  events_handler_missing_cursor _ _ [("token", "the-token"), ("partition", "0")]
    0 0 ⟨by decide, by decide⟩ (by decide) (by decide) rfl (by decide)

/-- C3: in the client's `FetchEvents` scan (both generations), a decoded
line whose `cursor` field is non-empty is dispatched as a checkpoint with
that cursor and is never delivered as an event; every other line is
dispatched as an event carrying the raw `data`.  An event with an empty
`data` payload is not decodable: `json.Unmarshal` of an empty input fails,
so the typed page receiver turns such a line into an error. -/
theorem fetch_line_classification (p : CheckpointOrEventV2)
    (q : CheckpointOrEventV1) :
    (p.cursor ≠ "" →
      dispatchLineV2 p = ReceiverCallV2.checkpoint p.cursor ∧
      ∀ d, dispatchLineV2 p ≠ ReceiverCallV2.event d) ∧
    (p.cursor = "" → dispatchLineV2 p = ReceiverCallV2.event p.data) ∧
    (q.cursor ≠ "" →
      dispatchLineV1 q = ReceiverCallV1.checkpoint q.partitionId q.cursor) ∧
    (q.cursor = "" →
      dispatchLineV1 q = ReceiverCallV1.event q.partitionId q.headers q.data) ∧
    (∀ (T : Type) (decode : String → Option T) (page : PageSingleType T),
      pageSingleTypeEvent decode page "" =
        Except.error "unexpected end of JSON input") := by
  refine ⟨fun h => ⟨?_, ?_⟩, fun h => ?_, fun h => ?_, fun h => ?_,
    fun T decode page => rfl⟩
  · rw [dispatchLineV2, if_pos h]
  · intro d
    rw [dispatchLineV2, if_pos h]
    intro hcontra
    cases hcontra
  · rw [dispatchLineV2, if_neg (not_not_intro h)]
  · rw [dispatchLineV1, if_pos h]
  · rw [dispatchLineV1, if_neg (not_not_intro h)]

/-- Witness for C3: the checkpoint line `{"cursor":"9999"}`, the event
line `{"data":"{...}"}`, their v1 counterparts, and the empty-data event
through the typed page receiver. -/
theorem fetch_line_classification_witness :
    dispatchLineV2 ⟨"9999", ""⟩ = ReceiverCallV2.checkpoint "9999" ∧
    dispatchLineV2 ⟨"", "\x7b\x22ID\x22:1\x7d"⟩ =
      ReceiverCallV2.event "\x7b\x22ID\x22:1\x7d" ∧
    dispatchLineV1 ⟨0, "9999", [], ""⟩ = ReceiverCallV1.checkpoint 0 "9999" ∧
    dispatchLineV1 ⟨1, "", [("h1", "v1")], "\x7b\x22ID\x22:1\x7d"⟩ =
      ReceiverCallV1.event 1 [("h1", "v1")] "\x7b\x22ID\x22:1\x7d" ∧
    pageSingleTypeEvent (fun _ => (none : Option Nat)) ⟨[], ""⟩ "" =
      Except.error "unexpected end of JSON input" :=
  ⟨((fetch_line_classification ⟨"9999", ""⟩ ⟨0, "9999", [], ""⟩).1
      (by decide)).1,
   ((fetch_line_classification ⟨"", "\x7b\x22ID\x22:1\x7d"⟩
      ⟨1, "", [("h1", "v1")], "\x7b\x22ID\x22:1\x7d"⟩).2.1 (by decide)),
   ((fetch_line_classification ⟨"9999", ""⟩ ⟨0, "9999", [], ""⟩).2.2.1
      (by decide)),
   ((fetch_line_classification ⟨"", "\x7b\x22ID\x22:1\x7d"⟩
      ⟨1, "", [("h1", "v1")], "\x7b\x22ID\x22:1\x7d"⟩).2.2.2.1 (by decide)),
   ((fetch_line_classification ⟨"", ""⟩ ⟨0, "", [], ""⟩).2.2.2.2
      Nat (fun _ => none) ⟨[], ""⟩)⟩

/-- C9 evaluation: the old client (`api.go`) assigns `req.URL.RawQuery`
*before* adding `stream` and `wait` to the local values map, so the sent
query string never contains a `wait` or `stream` parameter, no matter the
options; at a concrete input with non-zero `Wait` and `Stream` the sent
query holds only `n` and the cursor, while the post-encoding dead map
additions show the intended millisecond values. -/
theorem client_v1_wait_stream_never_sent :
    (∀ (pc : Int) (cursors : List GoCursor) (options : GoOptions),
      "wait" ∉ (clientV1SentQuery pc cursors options).map Prod.fst ∧
      "stream" ∉ (clientV1SentQuery pc cursors options).map Prod.fst) ∧
    clientV1SentQuery 2 [⟨0, "_first"⟩]
        { pageSizeHint := 0, wait := 5000000000, stream := 1000000000,
          headers := [] } =
      [("n", "2"), ("cursor0", "_first")] ∧
    clientV1DeadQuery 2 [⟨0, "_first"⟩]
        { pageSizeHint := 0, wait := 5000000000, stream := 1000000000,
          headers := [] } =
      [("n", "2"), ("cursor0", "_first"), ("stream", "1000"), ("wait", "5000")] := by
  refine ⟨fun pc cursors options => ?_, by decide, by decide⟩
  have hkeys : ∀ k ∈ (clientV1SentQuery pc cursors options).map Prod.fst,
      k = "n" ∨ k = "pagesizehint" ∨
      (∃ c ∈ cursors, k = "cursor" ++ toString c.partitionID) ∨
      k = "headers" := by
    intro k hk
    simp only [clientV1SentQuery, List.map_append, List.mem_append,
      List.mem_map] at hk
    rcases hk with ((h | h) | h) | h
    · rcases h with ⟨p, hp, he⟩
      left
      simp only [List.mem_singleton] at hp
      rw [hp] at he
      exact he.symm
    · rcases h with ⟨p, hp, he⟩
      right; left
      by_cases hps : options.pageSizeHint ≠ DefaultPageSize
      · rw [if_pos hps] at hp
        simp only [List.mem_singleton] at hp
        rw [hp] at he
        exact he.symm
      · rw [if_neg hps] at hp
        cases hp
    · rcases h with ⟨p, hp, he⟩
      rcases hp with ⟨c, hcmem, hce⟩
      right; right; left
      refine ⟨c, hcmem, ?_⟩
      rw [← he, ← hce]
    · rcases h with ⟨p, hp, he⟩
      right; right; right
      by_cases hh : options.headers ≠ []
      · rw [if_pos hh] at hp
        simp only [List.mem_singleton] at hp
        rw [hp] at he
        exact he.symm
      · rw [if_neg hh] at hp
        cases hp
  have hcursorlen : ∀ (c : GoCursor),
      ("cursor" ++ toString c.partitionID) ≠ "wait" ∧
      ("cursor" ++ toString c.partitionID) ≠ "stream" := by
    intro c
    have h1 : "cursor".data = ['c', 'u', 'r', 's', 'o', 'r'] := rfl
    constructor
    · intro h
      have hd := congrArg String.data h
      rw [String.data_append, h1] at hd
      have h2 : "wait".data = ['w', 'a', 'i', 't'] := rfl
      rw [h2] at hd
      simp at hd
    · intro h
      have hd := congrArg String.data h
      rw [String.data_append, h1] at hd
      have h2 : "stream".data = ['s', 't', 'r', 'e', 'a', 'm'] := rfl
      rw [h2] at hd
      simp at hd
  constructor
  · intro hmem
    rcases hkeys "wait" hmem with h | h | ⟨c, _, h⟩ | h
    · exact absurd h (by decide)
    · exact absurd h (by decide)
    · exact (hcursorlen c).1 h.symm
    · exact absurd h (by decide)
  · intro hmem
    rcases hkeys "stream" hmem with h | h | ⟨c, _, h⟩ | h
    · exact absurd h (by decide)
    · exact absurd h (by decide)
    · exact (hcursorlen c).2 h.symm
    · exact absurd h (by decide)

/-- Congruence of the scan loop in its tail: prepending the same line to
two line sequences with equal processing outcomes keeps them equal. -/
theorem processLines_cons_congr
    (parse : List Char → Option CheckpointOrEventV2) (x : List Char)
    {L1 L2 : List (List Char)}
    (h : processLines parse L1 = processLines parse L2) :
    processLines parse (x :: L1) = processLines parse (x :: L2) := by
  simp only [processLines]
  rw [h]

/-- Appending one final newline to the input never changes the processed
receiver invocations, whatever partial line `cur` the scanner holds. -/
theorem processLines_scanAux_newline
    (parse : List Char → Option CheckpointOrEventV2) :
    ∀ (s : List Char) (cur : List Char),
      processLines parse (scanLinesAux cur (s ++ ['\n'])) =
        processLines parse (scanLinesAux cur s) := by
  intro s
  induction s with
  | nil =>
      intro cur
      have hl : scanLinesAux cur (([] : List Char) ++ ['\n']) = [cur.reverse] := by
        simp [scanLinesAux]
      rw [hl]
      by_cases hc : cur.isEmpty
      · rw [List.isEmpty_iff] at hc
        subst hc
        have hr : scanLinesAux ([] : List Char) [] = [] := by
          simp [scanLinesAux]
        rw [hr]
        rfl
      · have hr : scanLinesAux cur [] = [cur.reverse] := by
          simp [scanLinesAux, hc]
        rw [hr]
  | cons c s' ih =>
      intro cur
      by_cases hc : c = '\n'
      · subst hc
        simp only [List.cons_append, scanLinesAux, if_pos rfl]
        exact processLines_cons_congr parse cur.reverse (ih [])
      · simp only [List.cons_append, scanLinesAux, if_neg hc]
        exact ih (c :: cur)

/-- C4: the v2 client scan produces the identical receiver-invocation
sequence on a body with and without a trailing newline after the final
record, because the scanner's final empty token is blank and blank lines
are skipped. -/
theorem trailing_newline_invariance
    (parse : List Char → Option CheckpointOrEventV2) (body : List Char) :
    processBody parse (body ++ ['\n']) = processBody parse body :=
  processLines_scanAux_newline parse body []

end ZeroEventHub
